import Mathlib

/-!
Verification of the zoo-buses example (src/cplex/cpp/zoobuskids.cpp).

The program builds a tiny integer linear program: minimize
`costBus40 * nbBus40 + costBus30 * nbBus30` subject to
`40 * nbBus40 + 30 * nbBus30 >= nbKids` over the variables
`nbBus40, nbBus30 : int+`, hands it to the CPLEX engine, and prints the
solved variable values and total cost on three lines of standard output.

The model data (constants, variable declarations, objective, constraint)
is embedded directly from the source.  The CPLEX engine itself is not part
of the repository; where its behaviour matters it is modelled from the
specification (see the doc comments marked "Modelled from the spec").
-/

set_option autoImplicit false

namespace ZooBusKids

/-- Embedded from the source, line 19: `int nbKids = 300;`. -/
def nbKids : Nat := 300

/-- Embedded from the source, line 22: `double costBus40 = 500;`.
The source stores the cost as a C `double`; its value is the integer 500,
so it is embedded as a natural number. -/
def costBus40 : Nat := 500

/-- Embedded from the source, line 23: `double costBus30 = 400;`. -/
def costBus30 : Nat := 400

/-- A decision-variable declaration, embedding the data carried by the
constructor call `IloIntVar v(env, lb, ub, name)`: an integer variable
with a lower bound, an optional finite upper bound (`none` embeds
`IloInfinity`, i.e. no finite upper bound), and a name. -/
structure IloIntVarDecl where
  lb : Nat
  ub : Option Nat
  name : String
  deriving Repr, DecidableEq

/-- Embedded from the source, line 27:
`IloIntVar nbBus40(env, 0, IloInfinity, "nbBus40");`. -/
def nbBus40Var : IloIntVarDecl := { lb := 0, ub := none, name := "nbBus40" }

/-- Embedded from the source, line 28:
`IloIntVar nbBus30(env, 0, IloInfinity, "nbBus30");`. -/
def nbBus30Var : IloIntVarDecl := { lb := 0, ub := none, name := "nbBus30" }

/-- A (non-negative integer) value `v` lies in the domain of a declared
variable when it respects the lower bound and any finite upper bound. -/
def IloIntVarDecl.inDomain (d : IloIntVarDecl) (v : Nat) : Prop :=
  d.lb ≤ v ∧ ∀ u, d.ub = some u → v ≤ u

/-- Embedded from the source, line 31: the objective expression
`cost = costBus40 * nbBus40 + costBus30 * nbBus30`, evaluated at an
assignment `a` to `nbBus40` and `b` to `nbBus30`. -/
def cost (a b : Nat) : Nat := costBus40 * a + costBus30 * b

/-- Embedded from the source, line 37: the single constraint
`40 * nbBus40 + 30 * nbBus30 >= nbKids`, with the kid count `k` kept as a
parameter so that boundary instances can be stated.  The variables range
over `Nat`, embedding the `int+` domain of the declarations. -/
def feasible (k a b : Nat) : Prop := 40 * a + 30 * b ≥ k

instance (k a b : Nat) : Decidable (feasible k a b) := by
  unfold feasible; infer_instance

/-- An assignment is optimal for kid count `k` when it is feasible and its
cost is at most the cost of every feasible assignment. -/
def IsOptimal (k a b : Nat) : Prop :=
  feasible k a b ∧ ∀ a' b', feasible k a' b' → cost a b ≤ cost a' b'

/-- Search bound on `nbBus40`: the number of 40-seat buses that suffices
alone, `ceil(k / 40)`. -/
def boxA (k : Nat) : Nat := (k + 39) / 40

/-- Search bound on `nbBus30`: the number of 30-seat buses that suffices
alone, `ceil(k / 30)`. -/
def boxB (k : Nat) : Nat := (k + 29) / 30

/-- Modelled from the spec: the CPLEX engine invoked by
`IloCplex cplex(model); cplex.solve();` is an external black box not
contained in this repository; the spec requires that "constructing the
Model and feeding it to any correct solver must yield a,b >= 0 integers
with 40a+30b>=300 and minimal 500a+400b".  The engine is therefore
modelled as a concrete correct solver: an exhaustive search over the box
`[0, boxA k] x [0, boxB k]` that returns a minimal-cost feasible
assignment, starting from the feasible assignment `(boxA k, 0)`. -/
def solve (k : Nat) : Nat × Nat :=
  let cands : List (Nat × Nat) :=
    (List.range (boxA k + 1)).flatMap fun a =>
      (List.range (boxB k + 1)).filterMap fun b =>
        if 40 * a + 30 * b ≥ k then some (a, b) else none
  cands.foldl (fun p q => if cost q.1 q.2 < cost p.1 p.2 then q else p) (boxA k, 0)

/-- Modelled from the spec: the possible outcomes of the boundary call
into the engine, "Result is either an assignment of values to every
Variable plus the objective value, or a status indicating
infeasibility/unboundedness/error".  `ok a b` is a successful solve whose
incumbent assigns `a` to `nbBus40` and `b` to `nbBus30`; `noSolution`
means `cplex.solve()` returns without a solution (infeasible or
unbounded), after which any `cplex.getValue` call raises an
`IloException` carrying the given message; `solveThrows` means the engine
raises an `IloException` during construction or solving. -/
inductive EngineBehavior where
  | ok (a b : Nat)
  | noSolution (msg : String)
  | solveThrows (msg : String)
  deriving Repr, DecidableEq

/-- The observable state of one process execution of `main`: the text
written to standard output and to standard error, whether `env.end()` was
invoked, how many times the top-level `catch` handler ran, how many times
`cplex.solve()` was called, and whether the process exited with status
zero. -/
structure ProcState where
  stdout : String
  stderr : String
  envEnded : Bool
  catches : Nat
  solveCalls : Nat
  exitOk : Bool
  deriving Repr, DecidableEq

/-- Embedding of `main` (source lines 12-53) as a function of the engine
behaviour.  The control flow mirrors the source:

* on a successful solve, the three `cout` lines of source lines 42-44 are
  written (`cplex.getValue` on a variable yields its incumbent value and
  on the `cost` expression yields the expression evaluated at the
  incumbent), then `env.end()` runs (line 46) and `main` returns 0;
* if `cplex.solve()` returns without a solution, line 42 first writes the
  chunk `"Use "`, then the chained `cplex.getValue(nbBus40)` raises an
  `IloException`; the `catch` block (lines 48-51) writes
  `exception: <msg>` to standard error and rethrows, so the process
  terminates abnormally (non-zero status) and `env.end()` never runs;
* if the engine throws during construction or solving, nothing has been
  written to standard output and the same `catch`-and-rethrow path is
  taken. -/
def run (eng : EngineBehavior) : ProcState :=
  match eng with
  | .ok a b =>
      { stdout := "Use " ++ toString a ++ " buses of type 40\n"
          ++ "Use " ++ toString b ++ " buses of type 30\n"
          ++ "Total cost: " ++ toString (cost a b) ++ "\n"
        stderr := ""
        envEnded := true
        catches := 0
        solveCalls := 1
        exitOk := true }
  | .noSolution msg =>
      { stdout := "Use "
        stderr := "exception: " ++ msg ++ "\n"
        envEnded := false
        catches := 1
        solveCalls := 1
        exitOk := false }
  | .solveThrows msg =>
      { stdout := ""
        stderr := "exception: " ++ msg ++ "\n"
        envEnded := false
        catches := 1
        solveCalls := 1
        exitOk := false }

/-- The first result line of source line 42, as a newline-terminated
string. -/
def resultLine40 (a : Nat) : String := "Use " ++ toString a ++ " buses of type 40\n"

/-- The second result line of source line 43. -/
def resultLine30 (b : Nat) : String := "Use " ++ toString b ++ " buses of type 30\n"

/-- The third result line of source line 44. -/
def resultLineCost (c : Nat) : String := "Total cost: " ++ toString c ++ "\n"

/-! ### Helper lemmas -/

/-- Every feasible assignment for 300 kids costs at least 3800. -/
lemma cost_lb_300 (a b : Nat) (h : feasible 300 a b) : 3800 ≤ cost a b := by
  simp only [feasible] at h
  simp only [cost, costBus40, costBus30]
  omega

/-- The assignment of 6 forty-seat buses and 2 thirty-seat buses is
optimal for 300 kids. -/
lemma isOptimal_300_6_2 : IsOptimal 300 6 2 := by
  refine ⟨by decide, fun a b h => ?_⟩
  have h1 : cost 6 2 = 3800 := by decide
  have h2 := cost_lb_300 a b h
  omega

/-- For 300 kids the optimal assignment is unique: it must be (6, 2). -/
lemma optimal_300_unique (a b : Nat) (h : IsOptimal 300 a b) : a = 6 ∧ b = 2 := by
  obtain ⟨hf, hmin⟩ := h
  have h1 : cost a b ≤ cost 6 2 := hmin 6 2 (by decide)
  have h2 := cost_lb_300 a b hf
  simp only [feasible] at hf
  simp only [cost, costBus40, costBus30] at h1 h2
  omega

set_option maxRecDepth 100000 in
/-- The modelled solver applied to the instance of the source returns the
assignment (6, 2). -/
lemma solve_nbKids_eq : solve nbKids = (6, 2) := by decide

/-- The modelled solver applied to the boundary instance of zero kids
returns the assignment (0, 0). -/
lemma solve_zero_eq : solve 0 = (0, 0) := by decide

/-- Lower bound on the length of the three concatenated result lines,
used to show that the failure-path output is not the result lines. -/
lemma result_lines_length (a b c : Nat) :
    22 ≤ (resultLine40 a ++ resultLine30 b ++ resultLineCost c).length := by
  simp only [resultLine40, resultLine30, resultLineCost, String.length_append]
  have h1 : "Use ".length = 4 := rfl
  have h2 : " buses of type 40\n".length = 18 := rfl
  omega

/-! ### Claims -/

/-- C1: for the fixed instance (nbKids = 300, bus capacities 40 and 30,
costs 500 and 400), the solve operation returns values a (nbBus40) and
b (nbBus30) that are non-negative integers satisfying
40\*a + 30\*b >= 300, and the cost 500\*a + 400\*b of the returned
assignment is at most 500\*a2 + 400\*b2 for every pair of non-negative
integers (a2, b2) with 40\*a2 + 30\*b2 >= 300. -/
theorem solve_returns_feasible_minimal :
    feasible nbKids (solve nbKids).1 (solve nbKids).2 ∧
    ∀ a b : Nat, feasible nbKids a b →
      cost (solve nbKids).1 (solve nbKids).2 ≤ cost a b := by
  rw [solve_nbKids_eq]
  refine ⟨by decide, fun a b h => ?_⟩
  have h1 : cost (6, 2).1 (6, 2).2 = 3800 := by decide
  have h2 := cost_lb_300 a b h
  omega

/-- C1 witness: the pair (8, 0) is feasible and the returned assignment
costs no more than it. -/
theorem solve_returns_feasible_minimal_witness :
    feasible nbKids 8 0 ∧
    cost (solve nbKids).1 (solve nbKids).2 ≤ cost 8 0 :=
  ⟨by decide, solve_returns_feasible_minimal.2 8 0 (by decide)⟩

/-- C2 counterexample: the assignments (0, 10) and (7, 1) named by the
claim do not attain the minimal cost for nbKids = 300: the feasible
assignment (6, 2) costs 3800, strictly less than their costs 4000 and
3900, so neither is optimal. -/
theorem claimed_optimum_0_10_refuted :
    feasible 300 6 2 ∧ cost 6 2 = 3800 ∧ cost 0 10 = 4000 ∧ cost 7 1 = 3900 ∧
    ¬ IsOptimal 300 0 10 ∧ ¬ IsOptimal 300 7 1 := by
  refine ⟨by decide, by decide, by decide, by decide, ?_, ?_⟩
  · intro h
    exact absurd (h.2 6 2 (by decide)) (by decide)
  · intro h
    exact absurd (h.2 6 2 (by decide)) (by decide)

/-- C2 amended: for nbKids = 300 the optimum of the model is a = 6,
b = 2 with cost 3800; it is the unique optimal assignment and it is the
assignment the modelled solver returns. -/
theorem optimum_300_is_6_2 :
    IsOptimal 300 6 2 ∧ cost 6 2 = 3800 ∧ solve 300 = (6, 2) ∧
    ∀ a b : Nat, IsOptimal 300 a b → a = 6 ∧ b = 2 :=
  ⟨isOptimal_300_6_2, by decide, solve_nbKids_eq, optimal_300_unique⟩

/-- C2 amended witness: the amended optimum is itself optimal, applied at
the concrete assignment (6, 2). -/
theorem optimum_300_is_6_2_witness :
    IsOptimal 300 6 2 ∧ (6 = 6 ∧ 2 = 2) :=
  ⟨optimum_300_is_6_2.1, optimum_300_is_6_2.2.2.2 6 2 optimum_300_is_6_2.1⟩

/-- C3: for the model parameterized by nbKids, at nbKids = 0 the optimal
solution is a = 0, b = 0 with cost 0: (0, 0) is feasible for
40\*a + 30\*b >= 0, no feasible assignment costs less, and the modelled
solver returns it. -/
theorem optimum_zero_kids :
    solve 0 = (0, 0) ∧ IsOptimal 0 0 0 ∧ cost 0 0 = 0 := by
  refine ⟨solve_zero_eq, ⟨by decide, fun a b _ => ?_⟩, by decide⟩
  have h1 : cost 0 0 = 0 := by decide
  omega

/-- C4: when the solve operation fails (the engine finds no solution or
throws), the process exits with a non-zero status, a failure message is
written to standard error, standard output carries at most the four
characters "Use " and never the three result lines; the three result
lines appear exactly on the success path. -/
theorem failure_no_bogus_result :
    (∀ msg : String,
      (run (.noSolution msg)).exitOk = false ∧
      (run (.solveThrows msg)).exitOk = false ∧
      (run (.noSolution msg)).stderr = "exception: " ++ msg ++ "\n" ∧
      (run (.solveThrows msg)).stderr = "exception: " ++ msg ++ "\n" ∧
      (run (.noSolution msg)).stdout = "Use " ∧
      (run (.solveThrows msg)).stdout = "" ∧
      (∀ a b : Nat,
        (run (.noSolution msg)).stdout ≠
          resultLine40 a ++ resultLine30 b ++ resultLineCost (cost a b) ∧
        (run (.solveThrows msg)).stdout ≠
          resultLine40 a ++ resultLine30 b ++ resultLineCost (cost a b))) ∧
    ∀ a b : Nat, (run (.ok a b)).stdout =
      resultLine40 a ++ resultLine30 b ++ resultLineCost (cost a b) := by
  constructor
  · intro msg
    refine ⟨rfl, rfl, rfl, rfl, rfl, rfl, fun a b => ⟨?_, ?_⟩⟩
    · intro heq
      have hlen := result_lines_length a b (cost a b)
      rw [← heq] at hlen
      simp only [run] at hlen
      exact absurd hlen (by decide)
    · intro heq
      have hlen := result_lines_length a b (cost a b)
      rw [← heq] at hlen
      simp only [run] at hlen
      exact absurd hlen (by decide)
  · intro a b
    show (_ : String) = _
    simp only [run, resultLine40, resultLine30, resultLineCost, String.append_assoc]

/-- C5: a solver exception is caught exactly once at top level, the
diagnostic "exception: msg" is logged to standard error, the process
terminates with a failure status, the solver is invoked exactly once (no
retry), and nothing beyond the text already written before the exception
appears on standard output. -/
theorem exception_caught_once :
    ∀ msg : String,
      (run (.noSolution msg)).catches = 1 ∧
      (run (.solveThrows msg)).catches = 1 ∧
      (run (.noSolution msg)).stderr = "exception: " ++ msg ++ "\n" ∧
      (run (.solveThrows msg)).stderr = "exception: " ++ msg ++ "\n" ∧
      (run (.noSolution msg)).exitOk = false ∧
      (run (.solveThrows msg)).exitOk = false ∧
      (run (.noSolution msg)).solveCalls = 1 ∧
      (run (.solveThrows msg)).solveCalls = 1 ∧
      (run (.noSolution msg)).stdout = "Use " ∧
      (run (.solveThrows msg)).stdout = "" :=
  fun _ => ⟨rfl, rfl, rfl, rfl, rfl, rfl, rfl, rfl, rfl, rfl⟩

/-- C6 counterexample: on the exception paths env.end() is not invoked:
the catch block of the source rethrows before reaching the env.end()
call, which sits inside the try block. -/
theorem env_not_ended_on_failure :
    (run (.solveThrows "CPLEX error")).envEnded = false ∧
    (run (.noSolution "no solution")).envEnded = false :=
  ⟨rfl, rfl⟩

/-- C6 amended: env.end() is invoked on the success path only; when the
solver reports failure or throws, the exception propagates out of the
catch block and the environment is never released by the program. -/
theorem env_ended_only_on_success :
    (∀ a b : Nat, (run (.ok a b)).envEnded = true) ∧
    (∀ msg : String,
      (run (.noSolution msg)).envEnded = false ∧
      (run (.solveThrows msg)).envEnded = false) :=
  ⟨fun _ _ => rfl, fun _ => ⟨rfl, rfl⟩⟩

/-- C7: on a successful run the standard output is exactly the three
result lines in fixed order (count of 40-seat buses, count of 30-seat
buses, total cost), nothing is written to standard error, and the
process exits with status 0. -/
theorem success_output_three_lines :
    ∀ a b : Nat,
      (run (.ok a b)).stdout =
        resultLine40 a ++ resultLine30 b ++ resultLineCost (cost a b) ∧
      (run (.ok a b)).stderr = "" ∧
      (run (.ok a b)).exitOk = true := by
  intro a b
  refine ⟨?_, rfl, rfl⟩
  show (_ : String) = _
  simp only [run, resultLine40, resultLine30, resultLineCost, String.append_assoc]

/-- C8: both decision variables are declared with lower bound 0 and no
finite upper bound, their domain contains every non-negative integer,
and any solved value attached to them is a non-negative integer (the
incumbent components of a successful engine outcome are naturals). -/
theorem variables_nonneg_integer_domain :
    nbBus40Var.lb = 0 ∧ nbBus40Var.ub = none ∧
    nbBus30Var.lb = 0 ∧ nbBus30Var.ub = none ∧
    ∀ v : Nat, nbBus40Var.inDomain v ∧ nbBus30Var.inDomain v := by
  refine ⟨rfl, rfl, rfl, rfl, fun v => ⟨⟨Nat.zero_le v, ?_⟩, ⟨Nat.zero_le v, ?_⟩⟩⟩
  · intro u hu
    simp [nbBus40Var] at hu
  · intro u hu
    simp [nbBus30Var] at hu

/-- C9: the three printed quantities are mutually consistent: the total
cost printed on the third line equals 500 times the count printed on the
first line plus 400 times the count printed on the second line. -/
theorem printed_cost_consistent :
    ∀ a b : Nat,
      (run (.ok a b)).stdout =
        resultLine40 a ++ resultLine30 b ++ resultLineCost (500 * a + 400 * b) := by
  intro a b
  show (_ : String) = _
  simp only [run, resultLine40, resultLine30, resultLineCost, cost,
    costBus40, costBus30, String.append_assoc]

/-- C10: the program takes no input, so its observable behaviour is a
function of the engine outcome alone; under the spec contract that the
engine returns an optimal assignment of the nbKids = 300 model, any two
successful executions produce identical observable states (in
particular, identical standard output). -/
theorem successful_runs_identical (a b c d : Nat)
    (h1 : IsOptimal nbKids a b) (h2 : IsOptimal nbKids c d) :
    run (.ok a b) = run (.ok c d) := by
  obtain ⟨ha, hb⟩ := optimal_300_unique a b h1
  obtain ⟨hc, hd⟩ := optimal_300_unique c d h2
  subst ha hb hc hd
  rfl

/-- C10 witness: applied at the concrete optimal assignment (6, 2). -/
theorem successful_runs_identical_witness :
    IsOptimal nbKids 6 2 ∧ run (.ok 6 2) = run (.ok 6 2) :=
  ⟨isOptimal_300_6_2,
    successful_runs_identical 6 2 6 2 isOptimal_300_6_2 isOptimal_300_6_2⟩

end ZooBusKids
